import Mathlib

/-!
Verification of the Google Docs document-tree renderer from
`src/gdocs/docs_tools.py` (functions `process_structural_elements`,
`process_tabs_recursively`, and the pure assembly part of
`get_doc_content`).

The Python functions walk JSON-like trees obtained from the Docs API,
accessing fields only through `dict.get` with defaults and Python
truthiness tests.  The shallow embedding below therefore represents each
node by the equivalence class of Python values that the code can
distinguish: an optional field whose absence and falsy presence behave
identically is an `Option`, a text run that passes the
`if text_run and 'content' in text_run` guard is `some content`,
unrecognised element kinds collapse into a single `unknown` constructor,
and so on.  `str.strip` is modelled over ASCII whitespace (the only
whitespace the claims exercise).  Strings carry their embedded newline
characters exactly as the Python code builds them: an emitted "line" is
one element of the returned list.
-/

/-- ASCII whitespace as stripped by Python `str.strip()`:
space, tab, newline, carriage return, vertical tab, form feed. -/
def isPySpace (c : Char) : Bool :=
  c = ' ' || c = '\t' || c = '\n' || c = '\r' || c.toNat = 11 || c.toNat = 12

/-- Python `s.strip()` over ASCII whitespace. -/
def pyStrip (s : String) : String :=
  String.mk (((s.toList.dropWhile isPySpace).reverse.dropWhile isPySpace).reverse)

/-- A run of `n` spaces; `sp (2 * level)` is the Python `"  " * level` indent. -/
def sp (n : Nat) : String :=
  String.mk (List.replicate n ' ')

/-- Python truthiness of an optional string (`None` and `""` are falsy). -/
def optTruthy : Option String → Bool
  | none => false
  | some s => s ≠ ""

/--
One structural element of a Google Doc, as distinguished by the
key-presence dispatch of `process_structural_elements`
(src/gdocs/docs_tools.py lines 111-177).

* `paragraph runs`: the `paragraph.elements` list; each entry is `some c`
  when its `textRun` is truthy and has a `content` key with value `c`,
  and `none` otherwise.
* `table rows`: `table.tableRows`, each row its `tableCells`, each cell
  its `content` list of nested elements.
* `footerContent` / `headerContent`: the nested `content` list.
* `unknown`: any element whose keys match none of the recognised kinds.
-/
inductive Element where
  | paragraph : List (Option String) → Element
  | table : List (List (List Element)) → Element
  | sectionBreak : Element
  | tableOfContents : Element
  | pageBreak : Element
  | horizontalRule : Element
  | footerContent : List Element → Element
  | headerContent : List Element → Element
  | unknown : Element

/-- The paragraph loop (lines 118-121): concatenate the `content` of every
truthy text run in order. -/
def concatRuns (runs : List (Option String)) : String :=
  runs.foldl (fun acc r => match r with | some c => acc ++ c | none => acc) ""

mutual

/-- Embedding of `process_structural_elements`
(src/gdocs/docs_tools.py lines 99-179): the per-element outputs,
concatenated in input order. -/
def process_structural_elements : List Element → List String
  | [] => []
  | e :: es => processElement e ++ process_structural_elements es

/-- The body of the `for element in elements` loop of
`process_structural_elements`: the lines one element contributes. -/
def processElement : Element → List String
  | Element.paragraph runs =>
      let current_line_text := concatRuns runs
      if pyStrip current_line_text = "" then [] else [current_line_text]
  | Element.table rows =>
      "\n--- TABLE ---\n" :: (processTableRows rows ++ ["--- END TABLE ---\n"])
  | Element.sectionBreak => ["\n--- SECTION BREAK ---\n"]
  | Element.tableOfContents => ["\n--- TABLE OF CONTENTS ---\n"]
  | Element.pageBreak => ["\n--- PAGE BREAK ---\n"]
  | Element.horizontalRule => ["\n--- HORIZONTAL RULE ---\n"]
  | Element.footerContent content =>
      "\n--- FOOTER ---\n" :: (process_structural_elements content ++ ["--- END FOOTER ---\n"])
  | Element.headerContent content =>
      "\n--- HEADER ---\n" :: (process_structural_elements content ++ ["--- END HEADER ---\n"])
  | Element.unknown => []

/-- The `for row in table_rows` loop (lines 132-142): a row is emitted as
one `" | "`-joined line iff some stripped cell text is non-empty. -/
def processTableRows : List (List (List Element)) → List String
  | [] => []
  | row :: rest =>
      (if (processRowCells row).any (fun t => t ≠ "") then
         [String.intercalate " | " (processRowCells row) ++ "\n"]
       else []) ++ processTableRows rest

/-- The `for cell in row_cells` loop (lines 136-139): each cell renders to
the stripped empty-join of its recursively processed content. -/
def processRowCells : List (List Element) → List String
  | [] => []
  | cell :: rest =>
      pyStrip (String.join (process_structural_elements cell)) :: processRowCells rest

end

/--
One tab node, as distinguished by `process_tabs_recursively`
(src/gdocs/docs_tools.py lines 24-97).

`Tab.mk title tabId documentTab childTabs tabs`:
* `title` / `tabId`: the `tabProperties.title` and `tabProperties.tabId`
  fields (`none` when absent, including when `tabProperties` is absent);
* `documentTab`: `none` when the `documentTab` field is absent or falsy,
  `some none` when it is truthy but its `body` is absent or falsy, and
  `some (some content)` when the body is truthy with `content` list
  `content` (the empty list when the `content` key is absent);
* `childTabs` / `tabs`: the two independent nesting relations.
-/
inductive Tab where
  | mk : Option String → Option String → Option (Option (List Element)) →
      List Tab → List Tab → Tab

/-- The skip test of line 45, `if target_tab_id and tab_id != target_tab_id`,
with Python truthiness on the target. -/
def skipTab (target : Option String) (tab_id : String) : Bool :=
  optTruthy target && tab_id != target.getD ""

/-- Lines 62-79: the lines a tab emits for its own document content —
the indented recursive rendering when the body content is non-empty, and
one of the three placeholder lines otherwise. -/
def tabBodyLines (documentTab : Option (Option (List Element))) (indent : String) :
    List String :=
  match documentTab with
  | some (some tab_content) =>
      if tab_content.isEmpty then [indent ++ "[EMPTY TAB CONTENT]\n"]
      else (process_structural_elements tab_content).map (fun line => indent ++ line)
  | some none => [indent ++ "[NO BODY CONTENT]\n"]
  | none => [indent ++ "[NO DOCUMENT TAB CONTENT]\n"]

mutual

/-- The `for i, tab in enumerate(tabs)` loop of `process_tabs_recursively`,
with `i` the 0-based position of the first tab of the list. -/
def processTabsFrom : List Tab → Nat → Nat → Option String → List String
  | [], _, _, _ => []
  | t :: rest, i, level, target =>
      processOneTab t i level target ++ processTabsFrom rest (i + 1) level target

/-- One iteration of the tab loop (src/gdocs/docs_tools.py lines 39-95). -/
def processOneTab : Tab → Nat → Nat → Option String → List String
  | Tab.mk title tabIdField documentTab child_tabs nested_tabs, i, level, target =>
      let indent := sp (2 * level)
      let tab_title := title.getD ("Tab " ++ toString (i + 1))
      let tab_id := tabIdField.getD "unknown"
      if skipTab target tab_id then
        (if child_tabs.isEmpty then []
         else processTabsFrom child_tabs 0 (level + 1) target) ++
        (if nested_tabs.isEmpty then []
         else processTabsFrom nested_tabs 0 (level + 1) target)
      else
        ("\n" ++ indent ++ "=== TAB " ++ toString (i + 1) ++ ": " ++ tab_title ++
            " (ID: " ++ tab_id ++ ") ===\n") ::
        (tabBodyLines documentTab indent ++
         (if child_tabs.isEmpty then []
          else (indent ++ "--- CHILD TABS ---\n") ::
            (processTabsFrom child_tabs 0 (level + 1) target ++
             [indent ++ "--- END CHILD TABS ---\n"])) ++
         (if nested_tabs.isEmpty then []
          else (indent ++ "--- NESTED TABS ---\n") ::
            (processTabsFrom nested_tabs 0 (level + 1) target ++
             [indent ++ "--- END NESTED TABS ---\n"])))

end

/-- Embedding of `process_tabs_recursively(tabs, level, target_tab_id)`
(src/gdocs/docs_tools.py lines 24-97). -/
def process_tabs_recursively (tabs : List Tab) (level : Nat)
    (target_tab_id : Option String) : List String :=
  processTabsFrom tabs 0 level target_tab_id

mutual

/-- Whether some tab of the list, at any depth along the `childTabs` and
`tabs` relations, has resolved id (`tabProperties.tabId`, else `"unknown"`)
equal to `t`. -/
def containsIdList : List Tab → String → Bool
  | [], _ => false
  | tab :: rest, t => containsIdTab tab t || containsIdList rest t

/-- Whether this tab or one of its descendants has resolved id `t`. -/
def containsIdTab : Tab → String → Bool
  | Tab.mk _ tabIdField _ child_tabs nested_tabs, t =>
      tabIdField.getD "unknown" = t || containsIdList child_tabs t ||
        containsIdList nested_tabs t

end

/-- The Drive file metadata used by `get_doc_content`
(fields `name`, `id`, `mimeType`, `webViewLink`, with the defaults of
src/gdocs/docs_tools.py lines 264-266 already applied). -/
structure DocMeta where
  fileName : String
  documentId : String
  mimeType : String
  webViewLink : String

/-- The parts of the Docs API `documents.get` payload that the native
branch of `get_doc_content` reads: the `tabs` list and the
`body.content` list. -/
structure DocData where
  tabs : List Tab
  bodyContent : List Element

/-- The metadata header of src/gdocs/docs_tools.py lines 379-382. -/
def docHeader (m : DocMeta) : String :=
  "File: \"" ++ m.fileName ++ "\" (ID: " ++ m.documentId ++ ", Type: " ++
    m.mimeType ++ ")\nLink: " ++ m.webViewLink ++ "\n\n--- CONTENT ---\n"

/-- The native Google Doc branch of `get_doc_content`
(src/gdocs/docs_tools.py lines 274-336 and 379-384): the document data is
passed in as the result of the already-performed API calls, and the
function returns the string the tool returns. -/
def get_doc_content_gdoc (m : DocMeta) (d : DocData) (tab_id : Option String) :
    String :=
  if d.tabs.isEmpty then
    if optTruthy tab_id then
      "File: \"" ++ m.fileName ++ "\" (ID: " ++ m.documentId ++ ", Type: " ++
        m.mimeType ++ ")\nLink: " ++ m.webViewLink ++
        "\n\n--- ERROR ---\nSpecified tab_id \"" ++ tab_id.getD "" ++
        "\" but document has no tabs."
    else
      docHeader m ++ String.join (process_structural_elements d.bodyContent)
  else
    if optTruthy tab_id then
      let processed_text_lines := process_tabs_recursively d.tabs 0 tab_id
      if processed_text_lines.isEmpty then
        "File: \"" ++ m.fileName ++ "\" (ID: " ++ m.documentId ++ ", Type: " ++
          m.mimeType ++ ")\nLink: " ++ m.webViewLink ++
          "\n\n--- ERROR ---\nNo tab found with tab_id \"" ++ tab_id.getD "" ++ "\"."
      else docHeader m ++ String.join processed_text_lines
    else
      docHeader m ++ String.join (process_tabs_recursively d.tabs 0 none)

/-- The re-indentation relation that actually links a render at a deeper
level to the same render `d` levels higher: the deeper line equals the
shallower line with `2 * d` extra spaces inserted, either at the very
start of the line, or immediately after the line's leading newline
character (the tab section-marker case). -/
def IndentRel (d : Nat) (a b : String) : Prop :=
  a = sp (2 * d) ++ b ∨ ∃ t, b = "\n" ++ t ∧ a = "\n" ++ (sp (2 * d) ++ t)

/-- String append is associative. -/
theorem str_append_assoc : ∀ a b c : String, a ++ b ++ c = a ++ (b ++ c)
  | ⟨la⟩, ⟨lb⟩, ⟨lc⟩ => congrArg String.mk (List.append_assoc la lb lc)

/-- Space runs add up. -/
theorem sp_add (m n : Nat) : sp (m + n) = sp m ++ sp n :=
  congrArg String.mk (List.replicate_add m n ' ')

/-- The deeper indent splits off the extra `2 * d` spaces. -/
theorem sp_split (L d : Nat) : sp (2 * (L + d)) = sp (2 * d) ++ sp (2 * L) := by
  have h : 2 * (L + d) = 2 * d + 2 * L := by ring
  rw [h, sp_add]

/-- Pointwise related images are `Forall₂`-related. -/
theorem forall2_map_same {α β : Type} {R : β → β → Prop} (f g : α → β)
    (h : ∀ x, R (f x) (g x)) : ∀ l : List α, List.Forall₂ R (l.map f) (l.map g)
  | [] => List.Forall₂.nil
  | x :: xs => List.Forall₂.cons (h x) (forall2_map_same f g h xs)

/-- A line of the form `indent ++ x` at levels `L + d` and `L` is related by
insertion of `2 * d` spaces at the start. -/
theorem indentRel_front (L d : Nat) (x : String) :
    IndentRel d (sp (2 * (L + d)) ++ x) (sp (2 * L) ++ x) :=
  Or.inl (by rw [sp_split, str_append_assoc])

/-- A tab marker line `"\n" ++ indent ++ x` at levels `L + d` and `L` is
related by insertion of `2 * d` spaces after the leading newline. -/
theorem indentRel_marker (L d : Nat) (x : String) :
    IndentRel d ("\n" ++ (sp (2 * (L + d)) ++ x)) ("\n" ++ (sp (2 * L) ++ x)) :=
  Or.inr ⟨sp (2 * L) ++ x, rfl, by rw [sp_split, str_append_assoc]⟩

/-- The own-body lines of a tab at levels `L + d` and `L` are pointwise
related by plain space-prefix insertion. -/
theorem indentRel_tabBodyLines (dt : Option (Option (List Element))) (L d : Nat) :
    List.Forall₂ (IndentRel d) (tabBodyLines dt (sp (2 * (L + d))))
      (tabBodyLines dt (sp (2 * L))) := by
  match dt with
  | none => exact List.Forall₂.cons (indentRel_front L d _) List.Forall₂.nil
  | some none => exact List.Forall₂.cons (indentRel_front L d _) List.Forall₂.nil
  | some (some c) =>
      rw [tabBodyLines, tabBodyLines]
      by_cases hc : c.isEmpty
      · simp only [hc, if_true]
        exact List.Forall₂.cons (indentRel_front L d _) List.Forall₂.nil
      · simp only [hc, if_false]
        exact forall2_map_same _ _ (fun x => indentRel_front L d x) _

/-- A list containing a matching tab is non-empty. -/
theorem containsIdList_ne_nil {tabs : List Tab} {t : String}
    (h : containsIdList tabs t = true) : tabs ≠ [] := by
  cases tabs with
  | nil => simp [containsIdList] at h
  | cons a l => exact List.cons_ne_nil a l

/-- When the skip test fires against target `some t`, the tab's resolved id
differs from `t`. -/
theorem skipTab_id_ne {t tab_id : String} (h : skipTab (some t) tab_id = true) :
    tab_id ≠ t := by
  simp only [skipTab, optTruthy, Bool.and_eq_true, bne_iff_ne, Option.getD_some,
    decide_eq_true_eq] at h
  exact h.2

/-- When the skip test does not fire against a non-empty target `some t`,
the tab's resolved id equals `t`. -/
theorem not_skipTab_id_eq {t tab_id : String} (ht : t ≠ "")
    (h : skipTab (some t) tab_id = false) : tab_id = t := by
  simp only [skipTab, optTruthy, Bool.and_eq_false_iff, bne_eq_false_iff_eq,
    Option.getD_some, decide_eq_false_iff_not, not_not] at h
  rcases h with h | h
  · exact absurd h ht
  · exact h

mutual

/-- If some tab of the list matches the non-empty target id, the filtered
walk produces at least one line. -/
theorem found_processTabsFrom (tabs : List Tab) (i L : Nat) (t : String)
    (ht : t ≠ "") (h : containsIdList tabs t = true) :
    processTabsFrom tabs i L (some t) ≠ [] := by
  match tabs with
  | [] => simp [containsIdList] at h
  | tab :: rest =>
      simp only [containsIdList, Bool.or_eq_true] at h
      simp only [processTabsFrom, ne_eq, List.append_eq_nil]
      rcases h with h | h
      · intro hc
        exact found_processOneTab tab i L t ht h hc.1
      · intro hc
        exact found_processTabsFrom rest (i + 1) L t ht h hc.2

/-- If this tab or a descendant matches the non-empty target id, rendering
it under that target produces at least one line. -/
theorem found_processOneTab (tab : Tab) (i L : Nat) (t : String)
    (ht : t ≠ "") (h : containsIdTab tab t = true) :
    processOneTab tab i L (some t) ≠ [] := by
  match tab with
  | Tab.mk title tid dt cts nts =>
      simp only [containsIdTab, Bool.or_eq_true, decide_eq_true_eq] at h
      by_cases hskip : skipTab (some t) (tid.getD "unknown") = true
      · simp only [processOneTab, hskip, if_true, ne_eq, List.append_eq_nil]
        rcases h with (h | h) | h
        · exact absurd h (skipTab_id_ne hskip)
        · intro hc
          have hne := containsIdList_ne_nil h
          have : cts.isEmpty = false := by
            cases cts with
            | nil => exact absurd rfl hne
            | cons a l => rfl
          rw [this] at hc
          exact found_processTabsFrom cts 0 (L + 1) t ht h (by simpa using hc.1)
        · intro hc
          have hne := containsIdList_ne_nil h
          have : nts.isEmpty = false := by
            cases nts with
            | nil => exact absurd rfl hne
            | cons a l => rfl
          rw [this] at hc
          exact found_processTabsFrom nts 0 (L + 1) t ht h (by simpa using hc.2)
      · simp only [processOneTab, hskip, if_false]
        exact List.cons_ne_nil _ _

end

mutual

/-- If no tab of the list matches the non-empty target id, the filtered
walk produces no lines at all. -/
theorem nomatch_processTabsFrom (tabs : List Tab) (i L : Nat) (t : String)
    (ht : t ≠ "") (h : containsIdList tabs t = false) :
    processTabsFrom tabs i L (some t) = [] := by
  match tabs with
  | [] => simp [processTabsFrom]
  | tab :: rest =>
      simp only [containsIdList, Bool.or_eq_false_iff] at h
      simp only [processTabsFrom, List.append_eq_nil]
      exact ⟨nomatch_processOneTab tab i L t ht h.1,
        nomatch_processTabsFrom rest (i + 1) L t ht h.2⟩

/-- If neither this tab nor any descendant matches the non-empty target id,
rendering it under that target produces no lines. -/
theorem nomatch_processOneTab (tab : Tab) (i L : Nat) (t : String)
    (ht : t ≠ "") (h : containsIdTab tab t = false) :
    processOneTab tab i L (some t) = [] := by
  match tab with
  | Tab.mk title tid dt cts nts =>
      simp only [containsIdTab, Bool.or_eq_false_iff, decide_eq_false_iff_not] at h
      have hskip : skipTab (some t) (tid.getD "unknown") = true := by
        simp only [skipTab, optTruthy, Bool.and_eq_true, bne_iff_ne,
          Option.getD_some, decide_eq_true_eq]
        exact ⟨ht, h.1.1⟩
      simp only [processOneTab, hskip, if_true, List.append_eq_nil]
      constructor
      · by_cases hc : cts.isEmpty <;> simp only [hc, if_true, if_false]
        exact nomatch_processTabsFrom cts 0 (L + 1) t ht h.1.2
      · by_cases hn : nts.isEmpty <;> simp only [hn, if_true, if_false]
        exact nomatch_processTabsFrom nts 0 (L + 1) t ht h.2

end

mutual

/-- Walking a tab list at level `L + d` produces lines pointwise
`IndentRel d`-related to the walk of the same list at level `L`. -/
theorem indentRel_processTabsFrom (tabs : List Tab) (i L d : Nat)
    (tgt : Option String) :
    List.Forall₂ (IndentRel d) (processTabsFrom tabs i (L + d) tgt)
      (processTabsFrom tabs i L tgt) := by
  match tabs with
  | [] =>
      simp only [processTabsFrom]
      exact List.Forall₂.nil
  | t :: rest =>
      simp only [processTabsFrom]
      exact List.rel_append (indentRel_processOneTab t i L d tgt)
        (indentRel_processTabsFrom rest (i + 1) L d tgt)

/-- Rendering one tab at level `L + d` produces lines pointwise
`IndentRel d`-related to its rendering at level `L`. -/
theorem indentRel_processOneTab (t : Tab) (i L d : Nat) (tgt : Option String) :
    List.Forall₂ (IndentRel d) (processOneTab t i (L + d) tgt)
      (processOneTab t i L tgt) := by
  match t with
  | Tab.mk title tid dt cts nts =>
      have hlev : L + d + 1 = (L + 1) + d := by omega
      simp only [processOneTab, hlev]
      by_cases hskip : skipTab tgt (tid.getD "unknown") = true
      · simp only [hskip, if_true]
        refine List.rel_append ?_ ?_
        · by_cases hc : cts.isEmpty <;> simp only [hc, if_true, if_false]
          · exact List.Forall₂.nil
          · exact indentRel_processTabsFrom cts 0 (L + 1) d tgt
        · by_cases hn : nts.isEmpty <;> simp only [hn, if_true, if_false]
          · exact List.Forall₂.nil
          · exact indentRel_processTabsFrom nts 0 (L + 1) d tgt
      · simp only [hskip, if_false]
        refine List.Forall₂.cons ?_ (List.rel_append (List.rel_append ?_ ?_) ?_)
        · simp only [str_append_assoc]
          exact indentRel_marker L d _
        · exact indentRel_tabBodyLines dt L d
        · by_cases hc : cts.isEmpty <;> simp only [hc, if_true, if_false]
          · exact List.Forall₂.nil
          · exact List.Forall₂.cons (indentRel_front L d _)
              (List.rel_append (indentRel_processTabsFrom cts 0 (L + 1) d tgt)
                (List.Forall₂.cons (indentRel_front L d _) List.Forall₂.nil))
        · by_cases hn : nts.isEmpty <;> simp only [hn, if_true, if_false]
          · exact List.Forall₂.nil
          · exact List.Forall₂.cons (indentRel_front L d _)
              (List.rel_append (indentRel_processTabsFrom nts 0 (L + 1) d tgt)
                (List.Forall₂.cons (indentRel_front L d _) List.Forall₂.nil))

end

/-- The cell loop is the map of stripped empty-joined recursive renders. -/
theorem processRowCells_eq_map : ∀ row : List (List Element),
    processRowCells row =
      row.map (fun cell => pyStrip (String.join (process_structural_elements cell)))
  | [] => rfl
  | cell :: rest => by
      simp only [processRowCells, List.map_cons, processRowCells_eq_map rest]

/-- Unfolding `filterMap` one step, phrased with an append. -/
theorem filterMap_cons_of_eq {α β : Type} (f : α → Option β) (a : α) (l : List α) :
    List.filterMap f (a :: l) =
      (match f a with | none => [] | some b => [b]) ++ List.filterMap f l := by
  rcases hfa : f a with _ | b
  · rw [List.filterMap_cons_none hfa]
    rfl
  · rw [List.filterMap_cons_some hfa]
    rfl

/-- The row loop keeps exactly the rows with some non-empty stripped cell,
rendered as `" | "`-joined lines. -/
theorem processTableRows_eq_filterMap : ∀ rows : List (List (List Element)),
    processTableRows rows =
      rows.filterMap (fun row =>
        if (row.map (fun cell =>
            pyStrip (String.join (process_structural_elements cell)))).any
              (fun s => s ≠ "") then
          some (String.intercalate " | " (row.map (fun cell =>
            pyStrip (String.join (process_structural_elements cell)))) ++ "\n")
        else none)
  | [] => rfl
  | row :: rest => by
      rw [processTableRows, processTableRows_eq_filterMap rest, processRowCells_eq_map,
        filterMap_cons_of_eq]
      cases hb : (row.map (fun cell =>
          pyStrip (String.join (process_structural_elements cell)))).any
            (fun s => s ≠ "") with
      | false => rfl
      | true => rfl

/-- C1: a table element renders as the start marker, then one
`" | "`-joined line per row whose cells have at least one non-empty
stripped rendered text (rows whose stripped cell texts are all empty are
dropped), then the end marker; in particular the table with rows
`["A","B"]` and `["",""]` renders as the start marker, the line
`"A | B"`, nothing for the all-empty second row, and the end marker.
A "line" is one element of the returned list, carrying its terminating
newline character. -/
theorem c1_table_row_rendering :
    (∀ rows : List (List (List Element)),
      processElement (Element.table rows) =
        "\n--- TABLE ---\n" ::
          (rows.filterMap (fun row =>
            if (row.map (fun cell =>
                pyStrip (String.join (process_structural_elements cell)))).any
                  (fun s => s ≠ "") then
              some (String.intercalate " | " (row.map (fun cell =>
                pyStrip (String.join (process_structural_elements cell)))) ++ "\n")
            else none) ++ ["--- END TABLE ---\n"])) ∧
    processElement (Element.table
      [[[Element.paragraph [some "A"]], [Element.paragraph [some "B"]]],
       [[Element.paragraph [some ""]], [Element.paragraph [some ""]]]]) =
      ["\n--- TABLE ---\n", "A | B\n", "--- END TABLE ---\n"] := by
  constructor
  · intro rows
    simp only [processElement, processTableRows_eq_filterMap]
  · decide

/-- C2: a paragraph element concatenates the text contents of its runs in
order and emits exactly that concatenation as one line iff its stripped
form is non-empty; `"Hello"` gives exactly the line `"Hello"`, an
all-whitespace concatenation gives no line. -/
theorem c2_paragraph_line :
    (∀ runs : List (Option String),
      processElement (Element.paragraph runs) =
        if pyStrip (concatRuns runs) = "" then [] else [concatRuns runs]) ∧
    processElement (Element.paragraph [some "Hello"]) = ["Hello"] ∧
    processElement (Element.paragraph [some " ", some "\t\n "]) = [] := by
  refine ⟨fun runs => rfl, by decide, by decide⟩

/-- Unfolding one tab's rendering in non-filtering mode (`target = none`,
for which the skip test of line 45 is always false). -/
theorem processOneTab_none_unfold (title tid : Option String)
    (dt : Option (Option (List Element))) (cts nts : List Tab) (i L : Nat) :
    processOneTab (Tab.mk title tid dt cts nts) i L none =
      ("\n" ++ sp (2 * L) ++ "=== TAB " ++ toString (i + 1) ++ ": " ++
          title.getD ("Tab " ++ toString (i + 1)) ++ " (ID: " ++
          tid.getD "unknown" ++ ") ===\n") ::
        (tabBodyLines dt (sp (2 * L)) ++
         (if cts.isEmpty then []
          else (sp (2 * L) ++ "--- CHILD TABS ---\n") ::
            (processTabsFrom cts 0 (L + 1) none ++
             [sp (2 * L) ++ "--- END CHILD TABS ---\n"])) ++
         (if nts.isEmpty then []
          else (sp (2 * L) ++ "--- NESTED TABS ---\n") ::
            (processTabsFrom nts 0 (L + 1) none ++
             [sp (2 * L) ++ "--- END NESTED TABS ---\n"]))) := rfl

/-- Unfolding one tab's rendering when the skip test fires: only the two
nesting relations are walked, at the next level, with the same target. -/
theorem processOneTab_skip_unfold (title tid : Option String)
    (dt : Option (Option (List Element))) (cts nts : List Tab) (i L : Nat)
    (target : Option String)
    (h : skipTab target (tid.getD "unknown") = true) :
    processOneTab (Tab.mk title tid dt cts nts) i L target =
      (if cts.isEmpty then [] else processTabsFrom cts 0 (L + 1) target) ++
      (if nts.isEmpty then [] else processTabsFrom nts 0 (L + 1) target) := by
  simp only [processOneTab, h, if_true]

/-- Unfolding one tab's rendering when the skip test does not fire: the
tab's own marker, body lines, and nesting blocks are all emitted. -/
theorem processOneTab_keep_unfold (title tid : Option String)
    (dt : Option (Option (List Element))) (cts nts : List Tab) (i L : Nat)
    (target : Option String)
    (h : skipTab target (tid.getD "unknown") = false) :
    processOneTab (Tab.mk title tid dt cts nts) i L target =
      ("\n" ++ sp (2 * L) ++ "=== TAB " ++ toString (i + 1) ++ ": " ++
          title.getD ("Tab " ++ toString (i + 1)) ++ " (ID: " ++
          tid.getD "unknown" ++ ") ===\n") ::
        (tabBodyLines dt (sp (2 * L)) ++
         (if cts.isEmpty then []
          else (sp (2 * L) ++ "--- CHILD TABS ---\n") ::
            (processTabsFrom cts 0 (L + 1) target ++
             [sp (2 * L) ++ "--- END CHILD TABS ---\n"])) ++
         (if nts.isEmpty then []
          else (sp (2 * L) ++ "--- NESTED TABS ---\n") ::
            (processTabsFrom nts 0 (L + 1) target ++
             [sp (2 * L) ++ "--- END NESTED TABS ---\n"]))) := by
  simp only [processOneTab, h]
  rfl

/-- C3: after its marker line, a tab (in non-filtering mode) continues
with exactly one of four mutually exclusive own-content renderings,
depending on its `documentTab` sub-tree: the indented recursive body
rendering when the body content is non-empty; the line
`"{indent}[EMPTY TAB CONTENT]"` when the body is present with empty
content; `"{indent}[NO BODY CONTENT]"` when the document sub-tree has no
truthy body; `"{indent}[NO DOCUMENT TAB CONTENT]"` when there is no
truthy document sub-tree.  The four cases exhaust the `documentTab`
alternatives, so malformed or missing substructure always renders a
placeholder instead of aborting (the embedding is a total function). -/
theorem c3_tab_content_cases (title tid : Option String)
    (dt : Option (Option (List Element))) (cts nts : List Tab) (i L : Nat) :
    processOneTab (Tab.mk title tid dt cts nts) i L none =
      ("\n" ++ sp (2 * L) ++ "=== TAB " ++ toString (i + 1) ++ ": " ++
          title.getD ("Tab " ++ toString (i + 1)) ++ " (ID: " ++
          tid.getD "unknown" ++ ") ===\n") ::
        (tabBodyLines dt (sp (2 * L)) ++
         (if cts.isEmpty then []
          else (sp (2 * L) ++ "--- CHILD TABS ---\n") ::
            (processTabsFrom cts 0 (L + 1) none ++
             [sp (2 * L) ++ "--- END CHILD TABS ---\n"])) ++
         (if nts.isEmpty then []
          else (sp (2 * L) ++ "--- NESTED TABS ---\n") ::
            (processTabsFrom nts 0 (L + 1) none ++
             [sp (2 * L) ++ "--- END NESTED TABS ---\n"]))) ∧
    (∀ c : List Element, dt = some (some c) → ¬c.isEmpty →
      tabBodyLines dt (sp (2 * L)) =
        (process_structural_elements c).map (fun line => sp (2 * L) ++ line)) ∧
    (dt = some (some []) →
      tabBodyLines dt (sp (2 * L)) = [sp (2 * L) ++ "[EMPTY TAB CONTENT]\n"]) ∧
    (dt = some none →
      tabBodyLines dt (sp (2 * L)) = [sp (2 * L) ++ "[NO BODY CONTENT]\n"]) ∧
    (dt = none →
      tabBodyLines dt (sp (2 * L)) = [sp (2 * L) ++ "[NO DOCUMENT TAB CONTENT]\n"]) := by
  refine ⟨processOneTab_none_unfold title tid dt cts nts i L, ?_, ?_, ?_, ?_⟩
  · intro c hc hne
    subst hc
    simp only [tabBodyLines]
    exact if_neg hne
  · intro hc
    subst hc
    rfl
  · intro hc
    subst hc
    rfl
  · intro hc
    subst hc
    rfl

/-- Witness for C3 at a concrete tab with present body and empty content. -/
theorem c3_witness :
    processOneTab (Tab.mk (some "Notes") (some "t1") (some (some [])) [] []) 0 0 none =
      ["\n=== TAB 1: Notes (ID: t1) ===\n", "[EMPTY TAB CONTENT]\n"] ∧
    tabBodyLines (some (some ([] : List Element))) (sp (2 * 0)) =
      [sp (2 * 0) ++ "[EMPTY TAB CONTENT]\n"] := by
  have h := c3_tab_content_cases (some "Notes") (some "t1") (some (some [])) [] [] 0 0
  exact ⟨by decide, h.2.2.1 rfl⟩

/-- C4: a tab whose `childTabs` and `tabs` collections are both non-empty
emits both the CHILD TABS and the NESTED TABS bracketed blocks, each
containing the recursive rendering of its collection at `level + 1`; the
two relations are walked independently, never as alternatives. -/
theorem c4_both_nesting_blocks (title tid : Option String)
    (dt : Option (Option (List Element))) (cts nts : List Tab) (i L : Nat)
    (hc : cts ≠ []) (hn : nts ≠ []) :
    processOneTab (Tab.mk title tid dt cts nts) i L none =
      ("\n" ++ sp (2 * L) ++ "=== TAB " ++ toString (i + 1) ++ ": " ++
          title.getD ("Tab " ++ toString (i + 1)) ++ " (ID: " ++
          tid.getD "unknown" ++ ") ===\n") ::
        (tabBodyLines dt (sp (2 * L)) ++
         ((sp (2 * L) ++ "--- CHILD TABS ---\n") ::
           (processTabsFrom cts 0 (L + 1) none ++
            [sp (2 * L) ++ "--- END CHILD TABS ---\n"])) ++
         ((sp (2 * L) ++ "--- NESTED TABS ---\n") ::
           (processTabsFrom nts 0 (L + 1) none ++
            [sp (2 * L) ++ "--- END NESTED TABS ---\n"]))) := by
  have hc' : cts.isEmpty = false := by
    cases cts with
    | nil => exact absurd rfl hc
    | cons a l => rfl
  have hn' : nts.isEmpty = false := by
    cases nts with
    | nil => exact absurd rfl hn
    | cons a l => rfl
  rw [processOneTab_none_unfold, hc', hn']
  rfl

/-- Witness for C4: one child tab and one nested tab, both blocks appear. -/
theorem c4_witness :
    processOneTab (Tab.mk (some "Root") (some "r") none
        [Tab.mk (some "C") (some "c") none [] []]
        [Tab.mk (some "N") (some "n") none [] []]) 0 0 none =
      ["\n=== TAB 1: Root (ID: r) ===\n",
       "[NO DOCUMENT TAB CONTENT]\n",
       "--- CHILD TABS ---\n",
       "\n  === TAB 1: C (ID: c) ===\n",
       "  [NO DOCUMENT TAB CONTENT]\n",
       "--- END CHILD TABS ---\n",
       "--- NESTED TABS ---\n",
       "\n  === TAB 1: N (ID: n) ===\n",
       "  [NO DOCUMENT TAB CONTENT]\n",
       "--- END NESTED TABS ---\n"] := by
  rw [c4_both_nesting_blocks (some "Root") (some "r") none
    [Tab.mk (some "C") (some "c") none [] []]
    [Tab.mk (some "N") (some "n") none [] []] 0 0
    (List.cons_ne_nil _ _) (List.cons_ne_nil _ _)]
  decide

/-- C5 counterexample: the marker element emitted for a tab ends in a
single newline and the joined render has the tab's own content line, not
a blank line, right after the marker line (the blank line sits before the
marker, produced by its leading newline). -/
theorem c5_counterexample :
    process_tabs_recursively [Tab.mk (some "T") (some "x") none [] []] 0 none =
      ["\n=== TAB 1: T (ID: x) ===\n", "[NO DOCUMENT TAB CONTENT]\n"] ∧
    String.join (process_tabs_recursively
        [Tab.mk (some "T") (some "x") none [] []] 0 none) =
      "\n=== TAB 1: T (ID: x) ===\n[NO DOCUMENT TAB CONTENT]\n" ∧
    String.join (process_tabs_recursively
        [Tab.mk (some "T") (some "x") none [] []] 0 none) ≠
      "\n=== TAB 1: T (ID: x) ===\n" ++ "\n" ++ "[NO DOCUMENT TAB CONTENT]\n" := by
  refine ⟨by decide, by decide, by decide⟩

/-- C5 (amended): the first element a rendered tab emits is exactly
`"\n{indent}=== TAB {i}: {title} (ID: {id}) ===\n"` — the marker line,
preceded by a line break and terminated by a single newline (no blank
line follows it) — with `indent` two spaces per level, 1-based `i`, the
title defaulting to `"Tab {i}"` and the id to `"unknown"`. -/
theorem c5_marker_line (title tid : Option String)
    (dt : Option (Option (List Element))) (cts nts : List Tab) (i L : Nat) :
    (processOneTab (Tab.mk title tid dt cts nts) i L none).head? =
      some ("\n" ++ sp (2 * L) ++ "=== TAB " ++ toString (i + 1) ++ ": " ++
        title.getD ("Tab " ++ toString (i + 1)) ++ " (ID: " ++
        tid.getD "unknown" ++ ") ===\n") := by
  rw [processOneTab_none_unfold]
  rfl

/-- C6 counterexample: at level 1 the first emitted line (the tab marker)
is not the corresponding level-0 line prefixed with two spaces — the
spaces sit after the leading newline, not before it. -/
theorem c6_counterexample :
    process_tabs_recursively [Tab.mk (some "T") (some "x") none [] []] 1 none =
      ["\n  === TAB 1: T (ID: x) ===\n", "  [NO DOCUMENT TAB CONTENT]\n"] ∧
    process_tabs_recursively [Tab.mk (some "T") (some "x") none [] []] 0 none =
      ["\n=== TAB 1: T (ID: x) ===\n", "[NO DOCUMENT TAB CONTENT]\n"] ∧
    "\n  === TAB 1: T (ID: x) ===\n" ≠ "  " ++ "\n=== TAB 1: T (ID: x) ===\n" := by
  refine ⟨by decide, by decide, by decide⟩

/-- C6 (amended): rendering at level `L` and at level 0 give equally long
line lists whose positionally corresponding lines are equal up to the
insertion of exactly `2 * L` spaces — inserted at the start of the line
for body, placeholder and bracket lines, and immediately after the
leading newline for tab section-marker lines. -/
theorem c6_indent_insertion (tabs : List Tab) (L : Nat) (target : Option String) :
    List.Forall₂ (IndentRel L) (process_tabs_recursively tabs L target)
      (process_tabs_recursively tabs 0 target) := by
  have h := indentRel_processTabsFrom tabs 0 0 L target
  simpa [process_tabs_recursively] using h

/-- C7: with a non-empty target id supplied, a tab whose resolved id
differs from the target renders none of its own content, but both its
`childTabs` and `tabs` collections are still walked at `level + 1` with
the same target; a tab whose resolved id equals the target renders its
marker, body and nesting blocks in full; and a list containing a matching
tab at any depth renders at least one line. -/
theorem c7_target_filtering (t : String) (ht : t ≠ "") :
    (∀ (title tid : Option String) (dt : Option (Option (List Element)))
        (cts nts : List Tab) (i L : Nat), tid.getD "unknown" ≠ t →
      processOneTab (Tab.mk title tid dt cts nts) i L (some t) =
        (if cts.isEmpty then [] else processTabsFrom cts 0 (L + 1) (some t)) ++
        (if nts.isEmpty then [] else processTabsFrom nts 0 (L + 1) (some t))) ∧
    (∀ (title tid : Option String) (dt : Option (Option (List Element)))
        (cts nts : List Tab) (i L : Nat), tid.getD "unknown" = t →
      processOneTab (Tab.mk title tid dt cts nts) i L (some t) =
        ("\n" ++ sp (2 * L) ++ "=== TAB " ++ toString (i + 1) ++ ": " ++
            title.getD ("Tab " ++ toString (i + 1)) ++ " (ID: " ++
            tid.getD "unknown" ++ ") ===\n") ::
          (tabBodyLines dt (sp (2 * L)) ++
           (if cts.isEmpty then []
            else (sp (2 * L) ++ "--- CHILD TABS ---\n") ::
              (processTabsFrom cts 0 (L + 1) (some t) ++
               [sp (2 * L) ++ "--- END CHILD TABS ---\n"])) ++
           (if nts.isEmpty then []
            else (sp (2 * L) ++ "--- NESTED TABS ---\n") ::
              (processTabsFrom nts 0 (L + 1) (some t) ++
               [sp (2 * L) ++ "--- END NESTED TABS ---\n"])))) ∧
    (∀ (tabs : List Tab) (i L : Nat), containsIdList tabs t = true →
      processTabsFrom tabs i L (some t) ≠ []) := by
  refine ⟨?_, ?_, ?_⟩
  · intro title tid dt cts nts i L hid
    refine processOneTab_skip_unfold title tid dt cts nts i L (some t) ?_
    simp [skipTab, optTruthy, ht, hid]
  · intro title tid dt cts nts i L hid
    refine processOneTab_keep_unfold title tid dt cts nts i L (some t) ?_
    simp [skipTab, optTruthy, hid]
  · intro tabs i L h
    exact found_processTabsFrom tabs i L t ht h

/-- Witness for C7 at target id `"x"`: a non-matching root with a
matching child is skipped for its own content, and the child list
containing the match still renders lines. -/
theorem c7_witness :
    processOneTab (Tab.mk (some "Root") (some "r") none
        [Tab.mk (some "C") (some "x") none [] []] []) 0 0 (some "x") =
      (if ([Tab.mk (some "C") (some "x") none [] []] : List Tab).isEmpty then []
       else processTabsFrom [Tab.mk (some "C") (some "x") none [] []] 0 (0 + 1)
         (some "x")) ++
      (if ([] : List Tab).isEmpty then []
       else processTabsFrom [] 0 (0 + 1) (some "x")) ∧
    processTabsFrom [Tab.mk (some "C") (some "x") none [] []] 0 0 (some "x") ≠ [] := by
  have h := c7_target_filtering "x" (by decide)
  exact ⟨h.1 (some "Root") (some "r") none
      [Tab.mk (some "C") (some "x") none [] []] [] 0 0 (by decide),
    h.2.2 [Tab.mk (some "C") (some "x") none [] []] 0 0 (by decide)⟩

/-- C8: the embedded renderers are total functions returning a (possibly
empty) list of lines for every input tree.  Absence, emptiness and
unrecognised keys are default values in the model, exactly as the
source's `dict.get` defaults and truthiness tests map them, so no such
input can make the functions fail: an element of unrecognised kind
contributes no output, empty inputs give empty outputs, and a tab node
with every key missing still renders with the documented defaults
instead of erroring. -/
theorem c8_total_and_default :
    process_structural_elements [] = [] ∧
    (∀ i L target, processTabsFrom [] i L target = []) ∧
    (∀ es : List Element,
      process_structural_elements (Element.unknown :: es) =
        process_structural_elements es) ∧
    (∀ i L, processOneTab (Tab.mk none none none [] []) i L none =
      ["\n" ++ sp (2 * L) ++ "=== TAB " ++ toString (i + 1) ++ ": " ++
         ("Tab " ++ toString (i + 1)) ++ " (ID: " ++ "unknown" ++ ") ===\n",
       sp (2 * L) ++ "[NO DOCUMENT TAB CONTENT]\n"]) := by
  refine ⟨rfl, fun i L target => rfl, fun es => ?_, fun i L => ?_⟩
  · rfl
  · rw [processOneTab_none_unfold]
    rfl

/-- C9 counterexample: for a native Google Doc the returned string is not
the metadata header followed by the newline-join of the renderer's lines
(the body is joined with the empty separator instead). -/
theorem c9_counterexample :
    get_doc_content_gdoc
        ⟨"Doc1", "id1", "application/vnd.google-apps.document", "link1"⟩
        ⟨[Tab.mk (some "T") (some "x") none [] []], []⟩ none ≠
      docHeader ⟨"Doc1", "id1", "application/vnd.google-apps.document", "link1"⟩ ++
        String.intercalate "\n"
          (process_tabs_recursively [Tab.mk (some "T") (some "x") none [] []]
            0 none) := by
  decide

/-- C9 (amended): for a native Google Doc fetched without a tab filter,
the returned string is the metadata header (document name, id, MIME type,
web link) followed by the empty-string join — plain concatenation — of
the renderer's ordered line sequence; the lines carry their own newline
characters and no separator is inserted between them. -/
theorem c9_header_plus_concat (m : DocMeta) (d : DocData) :
    get_doc_content_gdoc m d none =
      docHeader m ++ String.join
        (if d.tabs.isEmpty then process_structural_elements d.bodyContent
         else process_tabs_recursively d.tabs 0 none) := by
  by_cases h : d.tabs.isEmpty <;>
    simp [get_doc_content_gdoc, optTruthy, h]

/-- C10: in filtering mode (non-empty target id) a non-matching tab
contributes no lines of its own — no marker, no placeholder, and no
bracket lines — its output is exactly the splice of the two recursive
walks of its collections; a matching tab, by contrast, still emits its
CHILD TABS and NESTED TABS bracket pairs whenever the collections are
non-empty, and when no descendant matches the target those pairs enclose
empty blocks. -/
theorem c10_filtering_bracket_blocks (t : String) (ht : t ≠ "") :
    (∀ (title tid : Option String) (dt : Option (Option (List Element)))
        (cts nts : List Tab) (i L : Nat), tid.getD "unknown" ≠ t →
      processOneTab (Tab.mk title tid dt cts nts) i L (some t) =
        (if cts.isEmpty then [] else processTabsFrom cts 0 (L + 1) (some t)) ++
        (if nts.isEmpty then [] else processTabsFrom nts 0 (L + 1) (some t))) ∧
    (∀ (title tid : Option String) (dt : Option (Option (List Element)))
        (cts nts : List Tab) (i L : Nat), tid.getD "unknown" = t →
      cts ≠ [] → nts ≠ [] →
      containsIdList cts t = false → containsIdList nts t = false →
      processOneTab (Tab.mk title tid dt cts nts) i L (some t) =
        ("\n" ++ sp (2 * L) ++ "=== TAB " ++ toString (i + 1) ++ ": " ++
            title.getD ("Tab " ++ toString (i + 1)) ++ " (ID: " ++
            tid.getD "unknown" ++ ") ===\n") ::
          (tabBodyLines dt (sp (2 * L)) ++
           [sp (2 * L) ++ "--- CHILD TABS ---\n",
            sp (2 * L) ++ "--- END CHILD TABS ---\n"] ++
           [sp (2 * L) ++ "--- NESTED TABS ---\n",
            sp (2 * L) ++ "--- END NESTED TABS ---\n"])) := by
  constructor
  · intro title tid dt cts nts i L hid
    refine processOneTab_skip_unfold title tid dt cts nts i L (some t) ?_
    simp [skipTab, optTruthy, ht, hid]
  · intro title tid dt cts nts i L hid hc hn hcm hnm
    have hc' : cts.isEmpty = false := by
      cases cts with
      | nil => exact absurd rfl hc
      | cons a l => rfl
    have hn' : nts.isEmpty = false := by
      cases nts with
      | nil => exact absurd rfl hn
      | cons a l => rfl
    have hskip : skipTab (some t) (tid.getD "unknown") = false := by
      simp [skipTab, optTruthy, hid]
    rw [processOneTab_keep_unfold title tid dt cts nts i L (some t) hskip,
      hc', hn', nomatch_processTabsFrom cts 0 (L + 1) t ht hcm,
      nomatch_processTabsFrom nts 0 (L + 1) t ht hnm]
    rfl

/-- Witness for C10 at target id `"x"`: a matching root whose child and
nested tabs do not match renders its own content plus two empty
bracketed blocks. -/
theorem c10_witness :
    processOneTab (Tab.mk (some "Root") (some "x") none
        [Tab.mk (some "C") (some "c") none [] []]
        [Tab.mk (some "N") (some "n") none [] []]) 0 0 (some "x") =
      ["\n=== TAB 1: Root (ID: x) ===\n",
       "[NO DOCUMENT TAB CONTENT]\n",
       "--- CHILD TABS ---\n",
       "--- END CHILD TABS ---\n",
       "--- NESTED TABS ---\n",
       "--- END NESTED TABS ---\n"] := by
  rw [(c10_filtering_bracket_blocks "x" (by decide)).2 (some "Root") (some "x") none
    [Tab.mk (some "C") (some "c") none [] []]
    [Tab.mk (some "N") (some "n") none [] []] 0 0 rfl
    (List.cons_ne_nil _ _) (List.cons_ne_nil _ _) (by decide) (by decide)]
  decide
